import Mathlib

/-!
# Verification of the cashu-skill wallet CLI reconciliation logic

Shallow embedding of the payment-confirmation reconciliation logic of
`src/cli/wallet.mjs` (the `invoice` wait loop and the `check-invoice`
manual reconciliation path), together with theorems settling the spec's
claims about it.

Modelling choices:
* A thrown JavaScript error is modelled as `Option String`: the error's
  `message` property, `none` when the property is absent.  The source
  computes `const errorMsg = error.message || ''`, modelled by
  `Option.getD · ""` (an empty message is also replaced by `""`, which
  coincides).
* A read of the quote store (`coco.mintQuoteRepository.getMintQuote`)
  returns `Option String`: `some st` is a stored quote whose `state`
  field is `st`; `none` is a missing row (JS `null`).
* JavaScript `String.prototype.includes` is embedded as `includes`
  (substring containment over the character list, matching at any
  position, case-sensitively — exactly as `includes` behaves).
* Each loop iteration's interaction with the environment (store read,
  redemption result, store re-read inside the catch block) is a record
  `IterEnv`; the whole environment is a function from the iteration
  index, so the Background Watcher may change the store between
  iterations.
* Time: `Date.now() - startTime` advances only at the explicit
  `setTimeout(pollInterval)` sleep (idealized zero-cost operations),
  so the elapsed time at the top of the while loop increases by
  `pollInterval` per pending iteration.  `pollInterval` is the source's
  constant 5000.
-/

namespace CashuWallet

/-- Is `pat` a prefix-at-some-position of `s`, i.e. does `s` contain the
substring `pat`?  Mirrors JavaScript `String.prototype.includes`. -/
def containsChars (pat : List Char) : List Char → Bool
  | [] => pat.isEmpty
  | c :: rest => (pat.isPrefixOf (c :: rest) || containsChars pat rest)

/-- JavaScript `s.includes(pat)`: case-sensitive substring containment. -/
def includes (s pat : String) : Bool := containsChars pat.data s.data

/-- Lower-casing of a string, character by character. -/
def toLowerStr (s : String) : String := ⟨s.data.map Char.toLower⟩

/-- Case-insensitive substring containment (the spec's notion of
"contains, case-insensitively").  Not used by the source code, which
matches case-sensitively; used to state the claims' hypotheses. -/
def includesCI (s pat : String) : Bool := includes (toLowerStr s) (toLowerStr pat)

/-! ## The error-classification policy, exactly as inlined in the source. -/

/-- The `invoice` loop's duplicate-signal test, `wallet.mjs` line 130:
`errorMsg.includes('already issued') || errorMsg.includes('already spent')
|| errorMsg.includes('Tokens already minted')`. -/
def dupMatchInvoice (errorMsg : String) : Bool :=
  includes errorMsg "already issued" || includes errorMsg "already spent" ||
    includes errorMsg "Tokens already minted"

/-- The `invoice` loop's pending-signal test, `wallet.mjs` lines 139-143. -/
def pendMatchInvoice (errorMsg : String) : Bool :=
  includes errorMsg "PENDING" || includes errorMsg "not paid" ||
    includes errorMsg "UNPAID" || includes errorMsg "Quote not paid" ||
    includes errorMsg "quote not paid"

/-- The `check-invoice` duplicate-signal test, `wallet.mjs` line 187:
`errorMsg.includes('already issued') || errorMsg.includes('already spent')`. -/
def dupMatchCheck (errorMsg : String) : Bool :=
  includes errorMsg "already issued" || includes errorMsg "already spent"

/-- The `check-invoice` pending-signal test, `wallet.mjs` lines 195-197. -/
def pendMatchCheck (errorMsg : String) : Bool :=
  includes errorMsg "PENDING" || includes errorMsg "not paid" ||
    includes errorMsg "UNPAID"

/-- Outcome of classifying one caught redemption error. -/
inductive Classification
  | dup
  | pend
  | fatal
deriving DecidableEq, Repr

/-- Classification performed by the `invoice` loop's catch block
(`wallet.mjs` lines 125-150): duplicate-success only when the duplicate
pattern matches AND the re-read of the quote store shows `ISSUED`
(`rereadIssued`); otherwise fall through to the pending test; otherwise
fatal (`throw error`). -/
def classifyInvoice (errorMsg : String) (rereadIssued : Bool) : Classification :=
  if dupMatchInvoice errorMsg && rereadIssued then .dup
  else if pendMatchInvoice errorMsg then .pend
  else .fatal

/-- Classification performed by the `check-invoice` catch block
(`wallet.mjs` lines 184-202), same shape with its own pattern sets. -/
def classifyCheck (errorMsg : String) (rereadIssued : Bool) : Classification :=
  if dupMatchCheck errorMsg && rereadIssued then .dup
  else if pendMatchCheck errorMsg then .pend
  else .fatal

/-! ## Substring lemmas relating `includes` to `List.IsInfix`. -/

theorem containsChars_infix_iff (pat : List Char) (s : List Char) :
    containsChars pat s = true ↔ pat <:+: s := by
  induction s with
  | nil =>
    simp [containsChars, List.isEmpty_iff, List.infix_nil]
  | cons c rest ih =>
    simp only [containsChars, Bool.or_eq_true, List.isPrefixOf_iff_prefix, ih]
    exact (List.infix_cons_iff).symm

theorem includes_infix_iff (s pat : String) :
    includes s pat = true ↔ pat.data <:+: s.data :=
  containsChars_infix_iff pat.data s.data

/-- Transitivity of substring containment: if `s` contains `p` and `p`
contains `q` then `s` contains `q`. -/
theorem includes_trans {s p q : String} (hpq : includes p q = true)
    (hsp : includes s p = true) : includes s q = true := by
  rw [includes_infix_iff] at *
  exact hpq.trans hsp

/-- Case-sensitive containment implies containment after lower-casing. -/
theorem includes_toLower {s p : String} (h : includes s p = true) :
    includes (toLowerStr s) (toLowerStr p) = true := by
  rw [includes_infix_iff] at h ⊢
  exact h.map Char.toLower

/-- Case-sensitive containment implies the spec's case-insensitive
containment. -/
theorem includes_implies_CI {s p : String} (h : includes s p = true) :
    includesCI s p = true :=
  includes_toLower h

/-! ## The reconciliation loop (`invoice` command, `wallet.mjs` 109-158). -/

/-- The source's `const pollInterval = 5000` (line 94). -/
def pollInterval : Nat := 5000

/-- Does a quote-store read show a stored quote in state `ISSUED`?
Mirrors `localQuote && localQuote.state === 'ISSUED'`. -/
def isIssued : Option String → Bool
  | some st => st == "ISSUED"
  | none => false

/-- One loop iteration's interaction with the external world:
the quote-store read at the top of the iteration, the result of the
`redeemMintQuote` call (`Except.error err` models a throw whose message
is `err`), and the quote-store re-read performed inside the catch block
after a duplicate signal. -/
structure IterEnv where
  storeRead : Option String
  redeemResult : Except (Option String) Unit
  storeReread : Option String

/-- What one iteration of the while-loop body does. -/
inductive StepKind
  | paid
  | sleepContinue
  | fatalThrow (err : Option String)
deriving DecidableEq, Repr

/-- Result of one iteration body: its control-flow effect and whether
`redeemMintQuote` was called during it. -/
structure StepOut where
  kind : StepKind
  redeemCalled : Bool
deriving DecidableEq, Repr

/-- One iteration of the `invoice` while-loop body (`wallet.mjs`
113-151): read the store, break paid if `ISSUED`; otherwise call
`redeemMintQuote`; on success break paid; on a throw, classify the
message (duplicate-with-ISSUED-re-read breaks paid, pending sleeps and
continues, anything else re-throws the original error). -/
def loopStep (e : IterEnv) : StepOut :=
  if isIssued e.storeRead then ⟨.paid, false⟩
  else
    match e.redeemResult with
    | .ok _ => ⟨.paid, true⟩
    | .error err =>
      match classifyInvoice (err.getD "") (isIssued e.storeReread) with
      | .dup => ⟨.paid, true⟩
      | .pend => ⟨.sleepContinue, true⟩
      | .fatal => ⟨.fatalThrow err, true⟩

/-- Terminal result of the whole while loop, carrying the counters
accumulated during the run (total `redeemMintQuote` calls, total
sleeps, and the index reached, i.e. the number of iterations executed
when the run started at index 0). -/
inductive LoopOutcome
  | paid (redeemCalls sleeps iterations : Nat)
  | timedOut (redeemCalls sleeps iterations : Nat)
  | fatal (err : Option String) (redeemCalls sleeps iterations : Nat)
deriving DecidableEq, Repr

/-- The `invoice` while loop from an arbitrary elapsed time, iteration
index and accumulated counters: `while (Date.now() - startTime <
timeoutMs)`, where the elapsed time advances by `pollInterval` at each
pending sleep (the only suspension point). -/
def runLoopFrom (env : Nat → IterEnv) (timeoutMs elapsed idx redeems sleeps : Nat) :
    LoopOutcome :=
  if _h : elapsed < timeoutMs then
    match (loopStep (env idx)).kind with
    | .paid =>
      .paid (redeems + cond (loopStep (env idx)).redeemCalled 1 0) sleeps (idx + 1)
    | .fatalThrow err =>
      .fatal err (redeems + cond (loopStep (env idx)).redeemCalled 1 0) sleeps (idx + 1)
    | .sleepContinue =>
      runLoopFrom env timeoutMs (elapsed + pollInterval) (idx + 1)
        (redeems + cond (loopStep (env idx)).redeemCalled 1 0) (sleeps + 1)
  else .timedOut redeems sleeps idx
termination_by timeoutMs - elapsed
decreasing_by simp only [pollInterval]; omega

/-- The `invoice` wait loop started at elapsed time 0, iteration 0. -/
def runLoop (env : Nat → IterEnv) (timeoutMs : Nat) : LoopOutcome :=
  runLoopFrom env timeoutMs 0 0 0 0

/-- Process exit code of the `invoice` command: the outer catch
(`wallet.mjs` 346-350) exits 1 on a propagated error; otherwise the
command falls through to `process.exit(0)` (line 353), whether `paid`
ended `true` (success message) or `false` (timeout hint, line 157). -/
def invoiceCommandExit (env : Nat → IterEnv) (timeoutMs : Nat) : Nat :=
  match runLoop env timeoutMs with
  | .fatal _ _ _ _ => 1
  | _ => 0

/-! ## Manual reconciliation (`check-invoice`, `wallet.mjs` 162-205). -/

/-- The single-shot check's interaction with the world: store read,
redemption result, store re-read inside the catch block. -/
structure CheckEnv where
  storeRead : Option String
  redeemResult : Except (Option String) Unit
  storeReread : Option String

/-- User-visible result of one `check-invoice` run. -/
inductive CheckResult
  | paidMsg
  | pendingMsg
  | errorExit (err : Option String)
deriving DecidableEq, Repr

/-- One `check-invoice` resolution attempt (`wallet.mjs` 175-203):
read the store, report paid if `ISSUED`; otherwise call
`redeemMintQuote`; on success report paid; on a throw classify as in
the loop (duplicate-with-ISSUED-re-read reports paid, pending reports a
non-error pending status, anything else prints the error and exits 1).
The second component counts `redeemMintQuote` calls. -/
def checkInvoice (e : CheckEnv) : CheckResult × Nat :=
  if isIssued e.storeRead then (.paidMsg, 0)
  else
    match e.redeemResult with
    | .ok _ => (.paidMsg, 1)
    | .error err =>
      match classifyCheck (err.getD "") (isIssued e.storeReread) with
      | .dup => (.paidMsg, 1)
      | .pend => (.pendingMsg, 1)
      | .fatal => (.errorExit err, 1)

/-- Exit code of the `check-invoice` command: 1 when the quote-id
argument is missing (`wallet.mjs` 163-166) or when redemption failed
fatally (line 201); otherwise the command reaches `process.exit(0)`. -/
def checkCommandExit (quoteId : Option String) (e : CheckEnv) : Nat :=
  match quoteId with
  | none => 1
  | some _ =>
    match (checkInvoice e).1 with
    | .errorExit _ => 1
    | _ => 0

/-- Repeated invocation of `check-invoice` on the same stored quote:
the command never writes to the quote store, so each repetition reads
the same state. -/
def checkRepeat (e : CheckEnv) (n : Nat) : List (CheckResult × Nat) :=
  List.replicate n (checkInvoice e)

/-! ## Unfolding lemmas for the while loop. -/

set_option maxRecDepth 4000

theorem runLoopFrom_timeout {env : Nat → IterEnv} {t elapsed idx r s : Nat}
    (h : ¬ elapsed < t) :
    runLoopFrom env t elapsed idx r s = .timedOut r s idx := by
  rw [runLoopFrom.eq_def]
  rw [dif_neg h]

theorem runLoopFrom_paid {env : Nat → IterEnv} {t elapsed idx r s : Nat} {rc : Bool}
    (h : elapsed < t) (hs : loopStep (env idx) = ⟨.paid, rc⟩) :
    runLoopFrom env t elapsed idx r s = .paid (r + cond rc 1 0) s (idx + 1) := by
  rw [runLoopFrom.eq_def]
  rw [dif_pos h, hs]

theorem runLoopFrom_fatal {env : Nat → IterEnv} {t elapsed idx r s : Nat} {rc : Bool}
    {err : Option String}
    (h : elapsed < t) (hs : loopStep (env idx) = ⟨.fatalThrow err, rc⟩) :
    runLoopFrom env t elapsed idx r s = .fatal err (r + cond rc 1 0) s (idx + 1) := by
  rw [runLoopFrom.eq_def]
  rw [dif_pos h, hs]

theorem runLoopFrom_sleep {env : Nat → IterEnv} {t elapsed idx r s : Nat} {rc : Bool}
    (h : elapsed < t) (hs : loopStep (env idx) = ⟨.sleepContinue, rc⟩) :
    runLoopFrom env t elapsed idx r s =
      runLoopFrom env t (elapsed + pollInterval) (idx + 1) (r + cond rc 1 0) (s + 1) := by
  rw [runLoopFrom.eq_def]
  rw [dif_pos h, hs]

/-! ## Per-branch facts about one iteration body. -/

theorem loopStep_issued {e : IterEnv} (h : isIssued e.storeRead = true) :
    loopStep e = ⟨.paid, false⟩ := by
  unfold loopStep
  rw [h]
  rfl

theorem checkInvoice_issued {e : CheckEnv} (h : isIssued e.storeRead = true) :
    checkInvoice e = (.paidMsg, 0) := by
  unfold checkInvoice
  rw [h]
  rfl

theorem loopStep_error {e : IterEnv} {err : Option String}
    (h1 : isIssued e.storeRead = false) (h2 : e.redeemResult = .error err) :
    loopStep e =
      match classifyInvoice (err.getD "") (isIssued e.storeReread) with
      | .dup => ⟨.paid, true⟩
      | .pend => ⟨.sleepContinue, true⟩
      | .fatal => ⟨.fatalThrow err, true⟩ := by
  unfold loopStep
  rw [h1, h2]
  rfl

theorem checkInvoice_error {e : CheckEnv} {err : Option String}
    (h1 : isIssued e.storeRead = false) (h2 : e.redeemResult = .error err) :
    checkInvoice e =
      match classifyCheck (err.getD "") (isIssued e.storeReread) with
      | .dup => (.paidMsg, 1)
      | .pend => (.pendingMsg, 1)
      | .fatal => (.errorExit err, 1) := by
  unfold checkInvoice
  rw [h1, h2]
  rfl

/-- The loop's extra pending patterns `"Quote not paid"` and
`"quote not paid"` are subsumed by `"not paid"`, so the two pending
matchers agree on every message. -/
theorem pendMatch_agree (msg : String) : pendMatchInvoice msg = pendMatchCheck msg := by
  unfold pendMatchInvoice pendMatchCheck
  cases h : includes msg "not paid" with
  | true => simp [h]
  | false =>
    have hD : includes msg "Quote not paid" = false := by
      cases hq : includes msg "Quote not paid" with
      | false => rfl
      | true =>
        have : includes msg "not paid" = true :=
          includes_trans (p := "Quote not paid") (by decide) hq
        rw [h] at this
        exact absurd this (by simp)
    have hE : includes msg "quote not paid" = false := by
      cases hq : includes msg "quote not paid" with
      | false => rfl
      | true =>
        have : includes msg "not paid" = true :=
          includes_trans (p := "quote not paid") (by decide) hq
        rw [h] at this
        exact absurd this (by simp)
    simp [h, hD, hE]

/-! ## Claim theorems. -/

/-- C1 counterexample: the message `"already issued"` matches the
claim's case-insensitive duplicate patterns, and the quote-store
re-read shows `UNPAID` (not `ISSUED`), yet both paths classify it
fatal — the loop re-throws and the manual path exits with an error —
not pending as the claim states. -/
theorem c1_counterexample :
    includesCI "already issued" "already issued" = true ∧
    isIssued (some "UNPAID") = false ∧
    classifyInvoice "already issued" (isIssued (some "UNPAID")) = .fatal ∧
    classifyCheck "already issued" (isIssued (some "UNPAID")) = .fatal ∧
    loopStep ⟨some "UNPAID", .error (some "already issued"), some "UNPAID"⟩ =
      ⟨.fatalThrow (some "already issued"), true⟩ ∧
    checkInvoice ⟨some "UNPAID", .error (some "already issued"), some "UNPAID"⟩ =
      (.errorExit (some "already issued"), 1) := by
  decide

/-- C1 amended: for every error message matching the code's
case-sensitive duplicate patterns (`"already issued"`,
`"already spent"`, plus `"Tokens already minted"` in the loop only),
classification yields duplicate-success if and only if the subsequent
quote-store read returns `ISSUED`; when the re-read does not show
`ISSUED`, the message falls through to the pending/fatal classifier:
pending if it contains one of the code's case-sensitive pending
patterns, otherwise fatal. -/
theorem c1_dup_classification (msg : String) (reread : Option String) :
    (dupMatchInvoice msg = true →
      ((classifyInvoice msg (isIssued reread) = .dup ↔ isIssued reread = true) ∧
       (isIssued reread = false →
         classifyInvoice msg (isIssued reread) =
           (if pendMatchInvoice msg then .pend else .fatal)))) ∧
    (dupMatchCheck msg = true →
      ((classifyCheck msg (isIssued reread) = .dup ↔ isIssued reread = true) ∧
       (isIssued reread = false →
         classifyCheck msg (isIssued reread) =
           (if pendMatchCheck msg then .pend else .fatal)))) := by
  constructor
  · intro hd
    cases hr : isIssued reread
    · cases hp : pendMatchInvoice msg <;> simp [classifyInvoice, hd, hr, hp]
    · simp [classifyInvoice, hd, hr]
  · intro hd
    cases hr : isIssued reread
    · cases hp : pendMatchCheck msg <;> simp [classifyCheck, hd, hr, hp]
    · simp [classifyCheck, hd, hr]

/-- C1 witness: concrete application of `c1_dup_classification` at
`"already spent"` with a re-read showing `ISSUED`. -/
theorem c1_witness :
    classifyInvoice "already spent" (isIssued (some "ISSUED")) = .dup ∧
    classifyCheck "already spent" (isIssued (some "ISSUED")) = .dup := by
  have h := c1_dup_classification "already spent" (some "ISSUED")
  exact ⟨(h.1 (by decide)).1.mpr (by decide), (h.2 (by decide)).1.mpr (by decide)⟩

/-- C2: a quote whose store read returns `ISSUED` before any redemption
attempt makes the loop resolve paid at its first iteration with zero
`redeemMintQuote` calls, and makes `check-invoice` report paid with
zero `redeemMintQuote` calls. -/
theorem c2_issued_resolves_without_redeem (env : Nat → IterEnv) (t : Nat)
    (ce : CheckEnv) (ht : 0 < t)
    (h1 : (env 0).storeRead = some "ISSUED") (h2 : ce.storeRead = some "ISSUED") :
    runLoop env t = .paid 0 0 1 ∧ checkInvoice ce = (.paidMsg, 0) := by
  constructor
  · unfold runLoop
    rw [runLoopFrom_paid ht (loopStep_issued (by rw [h1]; rfl))]
    rfl
  · exact checkInvoice_issued (by rw [h2]; rfl)

/-- C2 witness: concrete environments whose first store read is
`ISSUED`. -/
theorem c2_witness :
    runLoop (fun _ => ⟨some "ISSUED", .ok (), none⟩) 300000 = .paid 0 0 1 ∧
    checkInvoice ⟨some "ISSUED", .ok (), none⟩ = (.paidMsg, 0) :=
  c2_issued_resolves_without_redeem (fun _ => ⟨some "ISSUED", .ok (), none⟩)
    300000 ⟨some "ISSUED", .ok (), none⟩ (by decide) rfl rfl

/-- C3 counterexample: on the message `"Tokens already minted"` with an
`ISSUED` re-read, the loop classifies duplicate-success while the
manual path classifies fatal — the two paths disagree. -/
theorem c3_counterexample :
    classifyInvoice "Tokens already minted" true = .dup ∧
    classifyCheck "Tokens already minted" true = .fatal ∧
    classifyInvoice "Tokens already minted" true ≠
      classifyCheck "Tokens already minted" true := by
  decide

/-- C3 amended: the two paths' classifications agree on every error
message that does not contain the substring `"Tokens already minted"`
(the one duplicate pattern present only in the loop); the pending
matchers agree on all messages. -/
theorem c3_classification_agreement (msg : String) (b : Bool)
    (h : includes msg "Tokens already minted" = false) :
    classifyInvoice msg b = classifyCheck msg b := by
  unfold classifyInvoice classifyCheck
  have hd : dupMatchInvoice msg = dupMatchCheck msg := by
    unfold dupMatchInvoice dupMatchCheck
    rw [h]
    simp
  rw [hd, pendMatch_agree]

/-- C3 witness: concrete application on an unrelated message. -/
theorem c3_witness :
    classifyInvoice "insufficient balance" false =
      classifyCheck "insufficient balance" false :=
  c3_classification_agreement "insufficient balance" false (by decide)

/-- A message whose lower-cased form does not contain a lower-cased
pattern does not contain the pattern case-sensitively either. -/
theorem not_includes_of_not_CI {s p : String} (h : includesCI s p = false) :
    includes s p = false := by
  cases hx : includes s p with
  | false => rfl
  | true =>
    rw [includes_implies_CI hx] at h
    exact absurd h (by simp)

/-- C4 counterexample: the message `"pending"` matches the claim's
case-insensitive pattern `"PENDING"`, yet the code's case-sensitive
match misses it: both paths classify it fatal, the loop re-throws and
the manual path exits with an error instead of reporting pending. -/
theorem c4_counterexample :
    includesCI "pending" "PENDING" = true ∧
    classifyInvoice "pending" false = .fatal ∧
    classifyCheck "pending" false = .fatal ∧
    loopStep ⟨some "UNPAID", .error (some "pending"), none⟩ =
      ⟨.fatalThrow (some "pending"), true⟩ ∧
    checkInvoice ⟨some "UNPAID", .error (some "pending"), none⟩ =
      (.errorExit (some "pending"), 1) := by
  decide

/-- C4 amended: for every error message containing, case-sensitively,
`"PENDING"`, `"not paid"` or `"UNPAID"`, classification in both paths
is never fatal; it is pending unless the duplicate branch resolved the
message as duplicate-success first.  In that case the loop sleeps and
continues and the manual path reports a non-error pending status. -/
theorem c4_pending_classification (msg : String) (b : Bool)
    (h : pendMatchCheck msg = true) :
    (classifyInvoice msg b ≠ .fatal ∧ classifyCheck msg b ≠ .fatal) ∧
    ((dupMatchInvoice msg && b) = false → classifyInvoice msg b = .pend) ∧
    ((dupMatchCheck msg && b) = false → classifyCheck msg b = .pend) ∧
    (∀ e : IterEnv, isIssued e.storeRead = false →
      e.redeemResult = .error (some msg) →
      (dupMatchInvoice msg && isIssued e.storeReread) = false →
      loopStep e = ⟨.sleepContinue, true⟩) ∧
    (∀ e : CheckEnv, isIssued e.storeRead = false →
      e.redeemResult = .error (some msg) →
      (dupMatchCheck msg && isIssued e.storeReread) = false →
      checkInvoice e = (.pendingMsg, 1)) := by
  have hInv : pendMatchInvoice msg = true := by rw [pendMatch_agree]; exact h
  refine ⟨⟨?_, ?_⟩, ?_, ?_, ?_, ?_⟩
  · cases hd : dupMatchInvoice msg && b <;> simp [classifyInvoice, hd, hInv]
  · cases hd : dupMatchCheck msg && b <;> simp [classifyCheck, hd, h]
  · intro hd
    simp [classifyInvoice, hd, hInv]
  · intro hd
    simp [classifyCheck, hd, h]
  · intro e h1 h2 hd
    rw [loopStep_error h1 h2]
    simp only [Option.getD_some]
    rw [show classifyInvoice msg (isIssued e.storeReread) = .pend from by
      simp [classifyInvoice, hd, hInv]]
  · intro e h1 h2 hd
    rw [checkInvoice_error h1 h2]
    simp only [Option.getD_some]
    rw [show classifyCheck msg (isIssued e.storeReread) = .pend from by
      simp [classifyCheck, hd, h]]

/-- C4 witness: concrete application of `c4_pending_classification` at
the message `"UNPAID"`. -/
theorem c4_witness :
    classifyInvoice "UNPAID" false = .pend ∧
    checkInvoice ⟨some "PAID", .error (some "UNPAID"), none⟩ = (.pendingMsg, 1) := by
  have h := c4_pending_classification "UNPAID" false (by decide)
  exact ⟨h.2.1 (by decide),
    h.2.2.2.2 ⟨some "PAID", .error (some "UNPAID"), none⟩ (by decide) rfl (by decide)⟩

/-- C5: a message matching, even case-insensitively, none of the
duplicate patterns and none of the pending patterns is classified fatal
by both paths, and the loop terminates at its first occurrence,
propagating the original error, with no further redemption attempts
(exactly the one call of the current iteration) and no further sleeps. -/
theorem c5_unmatched_fatal (msg : String) (b : Bool) (env : Nat → IterEnv)
    (t elapsed idx r s : Nat)
    (h1 : includesCI msg "already issued" = false)
    (h2 : includesCI msg "already spent" = false)
    (h3 : includesCI msg "already minted" = false)
    (h4 : includesCI msg "PENDING" = false)
    (h5 : includesCI msg "not paid" = false)
    (h6 : includesCI msg "UNPAID" = false) :
    classifyInvoice msg b = .fatal ∧ classifyCheck msg b = .fatal ∧
    (elapsed < t → isIssued (env idx).storeRead = false →
      (env idx).redeemResult = .error (some msg) →
      runLoopFrom env t elapsed idx r s = .fatal (some msg) (r + 1) s (idx + 1)) := by
  have n1 := not_includes_of_not_CI h1
  have n2 := not_includes_of_not_CI h2
  have n3 := not_includes_of_not_CI h3
  have n4 := not_includes_of_not_CI h4
  have n5 := not_includes_of_not_CI h5
  have n6 := not_includes_of_not_CI h6
  have nTokens : includes msg "Tokens already minted" = false := by
    cases hx : includes msg "Tokens already minted" with
    | false => rfl
    | true =>
      have : includes msg "already minted" = true :=
        includes_trans (p := "Tokens already minted") (by decide) hx
      rw [n3] at this
      exact absurd this (by simp)
  have nQ : includes msg "Quote not paid" = false := by
    cases hx : includes msg "Quote not paid" with
    | false => rfl
    | true =>
      have : includes msg "not paid" = true :=
        includes_trans (p := "Quote not paid") (by decide) hx
      rw [n5] at this
      exact absurd this (by simp)
  have nq : includes msg "quote not paid" = false := by
    cases hx : includes msg "quote not paid" with
    | false => rfl
    | true =>
      have : includes msg "not paid" = true :=
        includes_trans (p := "quote not paid") (by decide) hx
      rw [n5] at this
      exact absurd this (by simp)
  have hdupI : dupMatchInvoice msg = false := by
    simp [dupMatchInvoice, n1, n2, nTokens]
  have hdupC : dupMatchCheck msg = false := by
    simp [dupMatchCheck, n1, n2]
  have hpendI : pendMatchInvoice msg = false := by
    simp [pendMatchInvoice, n4, n5, n6, nQ, nq]
  have hpendC : pendMatchCheck msg = false := by
    simp [pendMatchCheck, n4, n5, n6]
  have hfi : ∀ c : Bool, classifyInvoice msg c = .fatal := fun c => by
    simp [classifyInvoice, hdupI, hpendI]
  refine ⟨hfi b, by simp [classifyCheck, hdupC, hpendC], ?_⟩
  intro hlt hse hre
  have hstep : loopStep (env idx) = ⟨.fatalThrow (some msg), true⟩ := by
    rw [loopStep_error hse hre]
    simp only [Option.getD_some]
    rw [hfi (isIssued (env idx).storeReread)]
  rw [runLoopFrom_fatal hlt hstep]
  rfl

/-- C5 witness: concrete application at the message
`"insufficient balance"`, which matches no pattern. -/
theorem c5_witness :
    classifyInvoice "insufficient balance" false = .fatal ∧
    runLoopFrom (fun _ => ⟨some "UNPAID", .error (some "insufficient balance"), none⟩)
      300000 0 0 0 0 = .fatal (some "insufficient balance") 1 0 1 := by
  have h := c5_unmatched_fatal "insufficient balance" false
    (fun _ => ⟨some "UNPAID", .error (some "insufficient balance"), none⟩)
    300000 0 0 0 0 (by decide) (by decide) (by decide) (by decide) (by decide) (by decide)
  exact ⟨h.1, h.2.2 (by decide) (by decide) rfl⟩

/-- An environment in which the quote never leaves `UNPAID` and every
redemption attempt fails with the pending-classified message
`"Quote not paid"`. -/
def constEnvPending : Nat → IterEnv :=
  fun _ => ⟨some "UNPAID", .error (some "Quote not paid"), some "UNPAID"⟩

/-- C6 counterexample: with `pollIntervalMs = 5000` and
`timeoutMs = 12000`, a quote that never leaves `UNPAID` produces a
`TimedOut` outcome after exactly THREE poll attempts (three
`redeemMintQuote` calls, three sleeps, three iterations, the elapsed
time at the loop condition being 0, 5000, 10000, 15000), not the two
the claim states. -/
theorem c6_counterexample :
    runLoop constEnvPending 12000 = .timedOut 3 3 3 ∧
    ¬ runLoop constEnvPending 12000 = .timedOut 2 2 2 := by
  have hstep : ∀ i, loopStep (constEnvPending i) = ⟨.sleepContinue, true⟩ :=
    fun _ => rfl
  have hrun : runLoop constEnvPending 12000 = .timedOut 3 3 3 := by
    unfold runLoop
    rw [runLoopFrom_sleep (by norm_num [pollInterval]) (hstep 0)]
    norm_num [pollInterval]
    rw [runLoopFrom_sleep (by norm_num [pollInterval]) (hstep 1)]
    norm_num [pollInterval]
    rw [runLoopFrom_sleep (by norm_num [pollInterval]) (hstep 2)]
    norm_num [pollInterval]
    rw [runLoopFrom_timeout (by norm_num [pollInterval])]
  refine ⟨hrun, ?_⟩
  rw [hrun]
  decide

/-- C6 amended: with `pollIntervalMs = 5000` and `timeoutMs = 12000`, a
quote that never leaves `UNPAID` whose every redemption attempt fails
with a pending-classified message yields exactly three poll attempts
and then a `TimedOut` outcome, which is not an error (exit code 0). -/
theorem c6_timeout_three_attempts (env : Nat → IterEnv)
    (hstore : ∀ i, (env i).storeRead = some "UNPAID")
    (hred : ∀ i, ∃ m, (env i).redeemResult = .error (some m) ∧
      classifyInvoice m (isIssued (env i).storeReread) = .pend) :
    runLoop env 12000 = .timedOut 3 3 3 ∧ invoiceCommandExit env 12000 = 0 := by
  have hstep : ∀ i, loopStep (env i) = ⟨.sleepContinue, true⟩ := by
    intro i
    obtain ⟨m, hm, hc⟩ := hred i
    rw [loopStep_error (by rw [hstore i]; rfl) hm]
    simp only [Option.getD_some]
    rw [hc]
  have hrun : runLoop env 12000 = .timedOut 3 3 3 := by
    unfold runLoop
    rw [runLoopFrom_sleep (by norm_num [pollInterval]) (hstep 0)]
    norm_num [pollInterval]
    rw [runLoopFrom_sleep (by norm_num [pollInterval]) (hstep 1)]
    norm_num [pollInterval]
    rw [runLoopFrom_sleep (by norm_num [pollInterval]) (hstep 2)]
    norm_num [pollInterval]
    rw [runLoopFrom_timeout (by norm_num [pollInterval])]
  refine ⟨hrun, ?_⟩
  unfold invoiceCommandExit
  rw [hrun]

/-- C6 witness: the constant pending environment satisfies the
hypotheses of `c6_timeout_three_attempts`. -/
theorem c6_witness :
    runLoop constEnvPending 12000 = .timedOut 3 3 3 ∧
    invoiceCommandExit constEnvPending 12000 = 0 :=
  c6_timeout_three_attempts constEnvPending (fun _ => rfl)
    (fun _ => ⟨"Quote not paid", rfl, rfl⟩)

/-- C7: invoking `check-invoice` any number of times on a quote whose
stored state is `ISSUED` yields the paid result on every repetition,
with zero `redeemMintQuote` calls and never an error (the command
performs no store writes, so each repetition reads the same state). -/
theorem c7_check_idempotent (e : CheckEnv) (n : Nat)
    (h : e.storeRead = some "ISSUED") :
    checkRepeat e n = List.replicate n ((CheckResult.paidMsg, 0) : CheckResult × Nat) := by
  unfold checkRepeat
  rw [checkInvoice_issued (by rw [h]; rfl)]

/-- C7 witness: two repetitions on a concrete `ISSUED` quote. -/
theorem c7_witness :
    checkRepeat ⟨some "ISSUED", .error (some "already spent"), none⟩ 2 =
      List.replicate 2 ((CheckResult.paidMsg, 0) : CheckResult × Nat) :=
  c7_check_idempotent ⟨some "ISSUED", .error (some "already spent"), none⟩ 2 rfl

/-- C8: the `invoice` command exits 0 whenever the loop resolves paid
or times out, and exits 1 whenever the loop terminates with a fatal
(unclassified) error; `check-invoice` exits 1 when the quote-id
argument is missing or redemption failed fatally, and 0 on a paid or
pending result. -/
theorem c8_exit_codes (env : Nat → IterEnv) (t : Nat) (ce : CheckEnv) (q : String) :
    (∀ r s i, runLoop env t = .paid r s i → invoiceCommandExit env t = 0) ∧
    (∀ r s i, runLoop env t = .timedOut r s i → invoiceCommandExit env t = 0) ∧
    (∀ m r s i, runLoop env t = .fatal m r s i → invoiceCommandExit env t = 1) ∧
    checkCommandExit none ce = 1 ∧
    (∀ m, (checkInvoice ce).1 = .errorExit m → checkCommandExit (some q) ce = 1) ∧
    ((checkInvoice ce).1 = .paidMsg ∨ (checkInvoice ce).1 = .pendingMsg →
      checkCommandExit (some q) ce = 0) := by
  refine ⟨?_, ?_, ?_, rfl, ?_, ?_⟩
  · intro r s i h
    unfold invoiceCommandExit
    rw [h]
  · intro r s i h
    unfold invoiceCommandExit
    rw [h]
  · intro m r s i h
    unfold invoiceCommandExit
    rw [h]
  · intro m h
    unfold checkCommandExit
    rw [h]
  · intro h
    unfold checkCommandExit
    rcases h with h | h <;> rw [h]

/-- C8 witness: concrete applications — a paid run exits 0, a missing
quote-id exits 1, a fatal check exits 1. -/
theorem c8_witness :
    invoiceCommandExit (fun _ => ⟨some "ISSUED", .ok (), none⟩) 300000 = 0 ∧
    checkCommandExit none ⟨some "ISSUED", .ok (), none⟩ = 1 ∧
    checkCommandExit (some "q1") ⟨some "UNPAID", .error (some "boom"), none⟩ = 1 := by
  have hrun : runLoop (fun _ => ⟨some "ISSUED", .ok (), none⟩) 300000 = .paid 0 0 1 := by
    unfold runLoop
    rw [runLoopFrom_paid (by norm_num) (show loopStep ⟨some "ISSUED", .ok (), none⟩ =
      ⟨.paid, false⟩ from rfl)]
    rfl
  have h := c8_exit_codes (fun _ => ⟨some "ISSUED", .ok (), none⟩) 300000
    ⟨some "ISSUED", .ok (), none⟩ "q1"
  have h2 := c8_exit_codes (fun _ => ⟨some "ISSUED", .ok (), none⟩) 300000
    ⟨some "UNPAID", .error (some "boom"), none⟩ "q1"
  exact ⟨h.1 0 0 1 hrun, h.2.2.2.1, h2.2.2.2.2.1 (some "boom") (by decide)⟩

/-- C9: a quote-store read returning `null` (no stored quote) is
treated by both paths exactly like a read returning any non-`ISSUED`
state: the iteration does not resolve success from the read, and it
proceeds to call `redeemMintQuote` (the loop step records a redemption
call; `check-invoice` records exactly one). -/
theorem c9_null_read_like_non_issued (e : IterEnv) (ce : CheckEnv) (s1 s2 : String)
    (hs1 : s1 ≠ "ISSUED") (hs2 : s2 ≠ "ISSUED") :
    (loopStep { e with storeRead := none } =
       loopStep { e with storeRead := some s1 } ∧
     (loopStep { e with storeRead := none }).redeemCalled = true) ∧
    (checkInvoice { ce with storeRead := none } =
       checkInvoice { ce with storeRead := some s2 } ∧
     (checkInvoice { ce with storeRead := none }).2 = 1) := by
  have h1 : isIssued (some s1) = false := by
    unfold isIssued
    exact beq_eq_false_iff_ne.mpr hs1
  have h2 : isIssued (some s2) = false := by
    unfold isIssued
    exact beq_eq_false_iff_ne.mpr hs2
  refine ⟨⟨?_, ?_⟩, ?_, ?_⟩
  · unfold loopStep
    simp only [show isIssued none = false from rfl, h1]
  · unfold loopStep
    simp only [show isIssued none = false from rfl, if_false, Bool.false_eq_true]
    cases hr : e.redeemResult with
    | ok u => rfl
    | error err =>
      cases hc : classifyInvoice (err.getD "") (isIssued e.storeReread) <;>
        simp [hc]
  · unfold checkInvoice
    simp only [show isIssued none = false from rfl, h2]
  · unfold checkInvoice
    simp only [show isIssued none = false from rfl, if_false, Bool.false_eq_true]
    cases hr : ce.redeemResult with
    | ok u => rfl
    | error err =>
      cases hc : classifyCheck (err.getD "") (isIssued ce.storeReread) <;>
        simp [hc]

/-- C9 witness: concrete application at the state `"UNPAID"`. -/
theorem c9_witness :
    loopStep ⟨none, .error (some "Quote not paid"), none⟩ =
      loopStep ⟨some "UNPAID", .error (some "Quote not paid"), none⟩ ∧
    checkInvoice ⟨none, .ok (), none⟩ = checkInvoice ⟨some "UNPAID", .ok (), none⟩ := by
  have h := c9_null_read_like_non_issued
    ⟨none, .error (some "Quote not paid"), none⟩ ⟨none, .ok (), none⟩
    "UNPAID" "UNPAID" (by decide) (by decide)
  exact ⟨h.1.1, h.2.1⟩

/-- C10: a thrown error whose message is absent (`none`) or empty is
normalized to the empty string, which matches no duplicate and no
pending pattern, so both paths classify it fatal: the loop terminates
re-throwing the original error and `check-invoice` exits 1 — no crash
during classification. -/
theorem c10_absent_message_fatal (err : Option String)
    (h : err = none ∨ err = some "") (b : Bool) (e : IterEnv) (ce : CheckEnv)
    (q : String) :
    err.getD "" = "" ∧
    classifyInvoice (err.getD "") b = .fatal ∧
    classifyCheck (err.getD "") b = .fatal ∧
    (isIssued e.storeRead = false → e.redeemResult = .error err →
      loopStep e = ⟨.fatalThrow err, true⟩) ∧
    (isIssued ce.storeRead = false → ce.redeemResult = .error err →
      checkInvoice ce = (.errorExit err, 1) ∧ checkCommandExit (some q) ce = 1) := by
  have hgd : err.getD "" = "" := by
    rcases h with rfl | rfl <;> rfl
  have hfi : ∀ c : Bool, classifyInvoice (err.getD "") c = .fatal := fun c => by
    rw [hgd]
    simp [classifyInvoice, show dupMatchInvoice "" = false from rfl,
      show pendMatchInvoice "" = false from rfl]
  have hfc : ∀ c : Bool, classifyCheck (err.getD "") c = .fatal := fun c => by
    rw [hgd]
    simp [classifyCheck, show dupMatchCheck "" = false from rfl,
      show pendMatchCheck "" = false from rfl]
  refine ⟨hgd, hfi b, hfc b, ?_, ?_⟩
  · intro h1 h2
    rw [loopStep_error h1 h2, hfi (isIssued e.storeReread)]
  · intro h1 h2
    have hch : checkInvoice ce = (.errorExit err, 1) := by
      rw [checkInvoice_error h1 h2, hfc (isIssued ce.storeReread)]
    refine ⟨hch, ?_⟩
    unfold checkCommandExit
    rw [hch]

/-- C10 witness: concrete application with an absent message. -/
theorem c10_witness :
    classifyInvoice ((none : Option String).getD "") false = .fatal ∧
    loopStep ⟨some "UNPAID", .error none, none⟩ = ⟨.fatalThrow none, true⟩ ∧
    checkCommandExit (some "q1") ⟨some "UNPAID", .error none, none⟩ = 1 := by
  have h := c10_absent_message_fatal none (Or.inl rfl) false
    ⟨some "UNPAID", .error none, none⟩ ⟨some "UNPAID", .error none, none⟩ "q1"
  exact ⟨h.2.1, h.2.2.2.1 (by decide) rfl, (h.2.2.2.2 (by decide) rfl).2⟩

end CashuWallet
